import Mathlib

/-!
Verification of the NewsScraper ingestion pipeline against its source.

The development shallowly embeds the Python modules `feed_parser.py`,
`weekly_feed_processor.py`, `vector_store.py` and the constants of
`config.py`.  External collaborators (the HTTP session plus the feedparser
library, BeautifulSoup, dateutil, the sentence-transformer embedding model
and the Qdrant client) are modelled as explicit function parameters that
either return a value or fail, mirroring the `try/except` structure of the
code.  Python `datetime` values are modelled by the record `PyDateTime`
(naive datetimes compare field-lexicographically); Python strings are
modelled by Lean `String` (both are sequences of unicode code points, so
`len`/slicing agree with `String.length`/char-list operations).  `hashlib.md5`
is implemented concretely (RFC 1321) on the UTF-8 bytes of the input.
-/

/-! ### Python naive `datetime` -/

/-- Model of a Python naive `datetime.datetime`: a record of calendar fields.
Python compares datetimes lexicographically by
(year, month, day, hour, minute, second, microsecond). -/
structure PyDateTime where
  year : Nat
  month : Nat
  day : Nat
  hour : Nat
  minute : Nat
  second : Nat
  microsecond : Nat
deriving DecidableEq, Repr

/-- The field ranges enforced by the `datetime` constructor
(`day ≤ 31` is the necessary part of day validity). -/
def PyDateTime.valid (d : PyDateTime) : Prop :=
  1 ≤ d.year ∧ d.year ≤ 9999 ∧ 1 ≤ d.month ∧ d.month ≤ 12 ∧
  1 ≤ d.day ∧ d.day ≤ 31 ∧ d.hour ≤ 23 ∧ d.minute ≤ 59 ∧
  d.second ≤ 59 ∧ d.microsecond ≤ 999999

instance (d : PyDateTime) : Decidable d.valid := by
  unfold PyDateTime.valid; infer_instance

/-- Lexicographic comparison of the seven datetime fields, as a proposition. -/
def PyDateTime.leP (a b : PyDateTime) : Prop :=
  a.year < b.year ∨ (a.year = b.year ∧
    (a.month < b.month ∨ (a.month = b.month ∧
      (a.day < b.day ∨ (a.day = b.day ∧
        (a.hour < b.hour ∨ (a.hour = b.hour ∧
          (a.minute < b.minute ∨ (a.minute = b.minute ∧
            (a.second < b.second ∨ (a.second = b.second ∧
              a.microsecond ≤ b.microsecond)))))))))))

instance (a b : PyDateTime) : Decidable (PyDateTime.leP a b) := by
  unfold PyDateTime.leP; infer_instance

/-- Python `d1 <= d2` on naive datetimes. -/
def PyDateTime.le (a b : PyDateTime) : Bool :=
  decide (PyDateTime.leP a b)

/-- Python `d1 < d2` on naive datetimes. -/
def PyDateTime.lt (a b : PyDateTime) : Bool :=
  PyDateTime.le a b && !(PyDateTime.le b a)

/-! ### Decimal printing and `datetime.isoformat` -/

/-- The character of a decimal digit (`Python` prints digits 0-9). -/
def digitChar (n : Nat) : Char := Char.ofNat (48 + n)

/-- Zero-padded fixed-width decimal digits, most significant first: the
digit list printed by Python for a field of width `w` (values below
`10 ^ w` print exactly their `w` low decimal digits). -/
def padDigits (w n : Nat) : List Char :=
  (List.range w).reverse.map (fun i => digitChar (n / 10 ^ i % 10))

/-- The microsecond suffix of `isoformat`: Python appends `.ffffff`
exactly when the microsecond field is nonzero. -/
def usChars (n : Nat) : List Char :=
  if n = 0 then [] else '.' :: padDigits 6 n

/-- The character list of Python `datetime.isoformat()` for a naive
datetime: `YYYY-MM-DDTHH:MM:SS` plus the microsecond suffix. -/
def isoChars (d : PyDateTime) : List Char :=
  padDigits 4 d.year ++ ('-' :: (padDigits 2 d.month ++ ('-' :: (padDigits 2 d.day ++
    ('T' :: (padDigits 2 d.hour ++ (':' :: (padDigits 2 d.minute ++
      (':' :: (padDigits 2 d.second ++ usChars d.microsecond))))))))))

/-- Python `datetime.isoformat()`. -/
def PyDateTime.isoformat (d : PyDateTime) : String := ⟨isoChars d⟩

/-! ### Calendar arithmetic (Python `timedelta` day subtraction) -/

/-- Day number of a civil (proleptic Gregorian) date, counted from the
era base 0000-03-01; the standard civil-from-days conversion, total on
the `datetime` year range (year ≥ 1). -/
def daysFromCivil (y m d : Nat) : Nat :=
  let yy := if m ≤ 2 then y - 1 else y
  let era := yy / 400
  let yoe := yy % 400
  let mp := (m + 9) % 12
  let doy := (153 * mp + 2) / 5 + d - 1
  let doe := yoe * 365 + yoe / 4 - yoe / 100 + doy
  era * 146097 + doe

/-- Civil date of a day number; inverse of `daysFromCivil`. -/
def civilFromDays (z : Nat) : Nat × Nat × Nat :=
  let era := z / 146097
  let doe := z % 146097
  let yoe := (doe - doe / 1460 + doe / 36524 - doe / 146096) / 365
  let y := yoe + era * 400
  let doy := doe - (365 * yoe + yoe / 4 - yoe / 100)
  let mp := (5 * doy + 2) / 153
  let dd := doy - (153 * mp + 2) / 5 + 1
  let mm := if mp < 10 then mp + 3 else mp - 9
  (if mm ≤ 2 then y + 1 else y, mm, dd)

/-- Python `dt - timedelta(days=n)`: shift the date by `n` days and keep
the time-of-day fields. -/
def PyDateTime.subDays (dt : PyDateTime) (n : Nat) : PyDateTime :=
  let z := daysFromCivil dt.year dt.month dt.day - n
  let c := civilFromDays z
  ⟨c.1, c.2.1, c.2.2, dt.hour, dt.minute, dt.second, dt.microsecond⟩

/-! ### `hashlib.md5` (RFC 1321) over the UTF-8 bytes of a string -/

/-- UTF-8 encoding of one code point, as byte values. -/
def utf8Bytes (c : Char) : List Nat :=
  let n := c.toNat
  if n < 128 then [n]
  else if n < 2048 then [192 + n / 64, 128 + n % 64]
  else if n < 65536 then [224 + n / 4096, 128 + n / 64 % 64, 128 + n % 64]
  else [240 + n / 262144, 128 + n / 4096 % 64, 128 + n / 64 % 64, 128 + n % 64]

/-- Python `s.encode()`: the UTF-8 bytes of a string. -/
def strBytes (s : String) : List Nat :=
  s.data.flatMap utf8Bytes

namespace MD5

/-- 2 ^ 32, the word modulus. -/
def w32 : Nat := 4294967296

/-- 32-bit addition. -/
def add32 (a b : Nat) : Nat := (a + b) % w32

/-- 32-bit left rotation (for x < 2 ^ 32 and 0 < s < 32). -/
def rotl (x s : Nat) : Nat := ((x <<< s) % w32) ||| (x >>> (32 - s))

/-- The 64 sine-derived round constants. -/
def kTable : List Nat :=
  [0xd76aa478, 0xe8c7b756, 0x242070db, 0xc1bdceee,
   0xf57c0faf, 0x4787c62a, 0xa8304613, 0xfd469501,
   0x698098d8, 0x8b44f7af, 0xffff5bb1, 0x895cd7be,
   0x6b901122, 0xfd987193, 0xa679438e, 0x49b40821,
   0xf61e2562, 0xc040b340, 0x265e5a51, 0xe9b6c7aa,
   0xd62f105d, 0x02441453, 0xd8a1e681, 0xe7d3fbc8,
   0x21e1cde6, 0xc33707d6, 0xf4d50d87, 0x455a14ed,
   0xa9e3e905, 0xfcefa3f8, 0x676f02d9, 0x8d2a4c8a,
   0xfffa3942, 0x8771f681, 0x6d9d6122, 0xfde5380c,
   0xa4beea44, 0x4bdecfa9, 0xf6bb4b60, 0xbebfbc70,
   0x289b7ec6, 0xeaa127fa, 0xd4ef3085, 0x04881d05,
   0xd9d4d039, 0xe6db99e5, 0x1fa27cf8, 0xc4ac5665,
   0xf4292244, 0x432aff97, 0xab9423a7, 0xfc93a039,
   0x655b59c3, 0x8f0ccc92, 0xffeff47d, 0x85845dd1,
   0x6fa87e4f, 0xfe2ce6e0, 0xa3014314, 0x4e0811a1,
   0xf7537e82, 0xbd3af235, 0x2ad7d2bb, 0xeb86d391]

/-- The 64 per-round rotation amounts. -/
def sTable : List Nat :=
  [7, 12, 17, 22, 7, 12, 17, 22, 7, 12, 17, 22, 7, 12, 17, 22,
   5, 9, 14, 20, 5, 9, 14, 20, 5, 9, 14, 20, 5, 9, 14, 20,
   4, 11, 16, 23, 4, 11, 16, 23, 4, 11, 16, 23, 4, 11, 16, 23,
   6, 10, 15, 21, 6, 10, 15, 21, 6, 10, 15, 21, 6, 10, 15, 21]

/-- One of the 64 MD5 steps on state (a, b, c, d). -/
def step (M : List Nat) (st : Nat × Nat × Nat × Nat) (i : Nat) : Nat × Nat × Nat × Nat :=
  let a := st.1
  let b := st.2.1
  let c := st.2.2.1
  let d := st.2.2.2
  let fg : Nat × Nat :=
    if i < 16 then ((b &&& c) ||| ((b ^^^ 4294967295) &&& d), i)
    else if i < 32 then ((d &&& b) ||| ((d ^^^ 4294967295) &&& c), (5 * i + 1) % 16)
    else if i < 48 then (b ^^^ c ^^^ d, (3 * i + 5) % 16)
    else (c ^^^ (b ||| (d ^^^ 4294967295)), (7 * i) % 16)
  let f := add32 (add32 (add32 a fg.1) (kTable.getD i 0)) (M.getD fg.2 0)
  (d, add32 b (rotl f (sTable.getD i 0)), b, c)

/-- Process one 16-word block and add the result into the state. -/
def processBlock (st : Nat × Nat × Nat × Nat) (M : List Nat) : Nat × Nat × Nat × Nat :=
  let r := (List.range 64).foldl (step M) st
  (add32 st.1 r.1, add32 st.2.1 r.2.1, add32 st.2.2.1 r.2.2.1, add32 st.2.2.2 r.2.2.2)

/-- Little-endian byte list of width `w` for `n` (modulo 2 ^ (8 w)). -/
def leBytes : Nat → Nat → List Nat
  | 0, _ => []
  | w + 1, n => n % 256 :: leBytes w (n / 256)

/-- RFC 1321 padding: a 0x80 byte, zeros to 56 mod 64, then the 8-byte
little-endian bit length. -/
def padMessage (msg : List Nat) : List Nat :=
  let len := msg.length
  let k := (119 - len % 64) % 64
  msg ++ 128 :: (List.replicate k 0 ++ leBytes 8 (len * 8))

/-- Group bytes, four at a time little-endian, into 32-bit words. -/
def bytesToWords : List Nat → List Nat
  | b0 :: b1 :: b2 :: b3 :: rest =>
    (b0 + 256 * b1 + 65536 * b2 + 16777216 * b3) :: bytesToWords rest
  | _ => []

/-- 64-byte chunks of the padded message. -/
def chunks64 (l : List Nat) : List (List Nat) :=
  if h : l = [] then [] else l.take 64 :: chunks64 (l.drop 64)
termination_by l.length
decreasing_by
  simp only [List.length_drop]
  have : 0 < l.length := List.length_pos.mpr h
  omega

/-- The final MD5 state over a byte message. -/
def md5Words (bytes : List Nat) : Nat × Nat × Nat × Nat :=
  (chunks64 (padMessage bytes)).foldl (fun st blk => processBlock st (bytesToWords blk))
    (0x67452301, 0xefcdab89, 0x98badcfe, 0x10325476)

/-- The 16 digest bytes, state words serialized little-endian. -/
def digestBytes (bytes : List Nat) : List Nat :=
  let st := md5Words bytes
  leBytes 4 st.1 ++ leBytes 4 st.2.1 ++ leBytes 4 st.2.2.1 ++ leBytes 4 st.2.2.2

/-- Lowercase hex character of a value below 16. -/
def hexChar (n : Nat) : Char :=
  if n < 10 then Char.ofNat (48 + n) else Char.ofNat (87 + n)

/-- Two lowercase hex characters of a byte. -/
def byteHex (b : Nat) : List Char := [hexChar (b / 16), hexChar (b % 16)]

end MD5

/-- Python `hashlib.md5(s.encode()).hexdigest()`. -/
def md5hex (s : String) : String :=
  ⟨(MD5.digestBytes (strBytes s)).flatMap MD5.byteHex⟩

/-! ### `urllib.parse.urlparse` — path extraction -/

/-- Valid characters after the first one of a URL scheme. -/
def isSchemeChar (c : Char) : Bool :=
  c.isAlphanum || c = '+' || c = '-' || c = '.'

/-- A valid scheme: a letter followed by scheme characters. -/
def validScheme : List Char → Bool
  | [] => false
  | c :: cs => c.isAlpha && cs.all isSchemeChar

/-- Drop a leading `scheme:` when the text before the first ':' is a
valid scheme, as urlsplit does. -/
def dropScheme (l : List Char) : List Char :=
  match l.findIdx? (· = ':') with
  | none => l
  | some i => if 0 < i && validScheme (l.take i) then l.drop (i + 1) else l

/-- Drop a leading `//netloc`; the netloc runs to the next '/', '?' or '#'. -/
def dropNetloc (l : List Char) : List Char :=
  match l with
  | '/' :: '/' :: rest => rest.dropWhile (fun c => c ≠ '/' && c ≠ '?' && c ≠ '#')
  | _ => l

/-- Keep the text before the fragment and query: urlsplit removes the
part after the first '#', then the part after the first '?'. -/
def takePath (l : List Char) : List Char :=
  l.takeWhile (fun c => c ≠ '#' && c ≠ '?')

/-- urlparse additionally splits parameters: a ';' in the last path
segment (or anywhere when there is no '/') starts the params. -/
def dropParams (l : List Char) : List Char :=
  if l.contains '/' then
    let j := l.length - 1 - List.findIdx (· = '/') l.reverse
    match (l.drop j).findIdx? (· = ';') with
    | none => l
    | some k => l.take (j + k)
  else
    match l.findIdx? (· = ';') with
    | none => l
    | some k => l.take k

/-- `urlparse(url).path`. -/
def urlparse_path (url : String) : String :=
  ⟨dropParams (takePath (dropNetloc (dropScheme url.data)))⟩

/-! ### `config.py` constants -/

/-- `config.MAX_ARTICLES_PER_FEED`. -/
def MAX_ARTICLES_PER_FEED : Nat := 10

/-- `config.REMOVE_HTML_TAGS`. -/
def REMOVE_HTML_TAGS : Bool := true

/-- `config.MAX_SUMMARY_LENGTH`. -/
def MAX_SUMMARY_LENGTH : Nat := 200

/-! ### `feed_parser.py` data model -/

/-- Python truthiness of an optional string attribute: the attribute is
present and non-empty (`getattr(e, name, ...)`/`hasattr` plus `and e.name`). -/
def truthy : Option String → Bool
  | some s => s ≠ ""
  | none => false

/-- One item of `entry.media_content`: `media.get("type", "")` is
modelled by `mtype` with its default, `media.get("medium")` by `medium`,
and the presence of the "url" key by `url`. -/
structure MediaItem where
  url : Option String
  mtype : String
  medium : Option String
deriving DecidableEq, Repr

/-- A feedparser entry, with exactly the attributes `parse_entry` reads.
`title` and `link` model `getattr(entry, name, "")` (an absent attribute
is the empty string); the remaining fields are `none` when the attribute
is absent.  `content` holds `entry.content[0].value`; `tags` holds the
optional `term` of each tag. -/
structure FeedEntry where
  title : String
  link : String
  content : Option String
  description : Option String
  summary : Option String
  published_parsed : Option PyDateTime
  updated_parsed : Option PyDateTime
  published : Option String
  updated : Option String
  author : Option String
  tags : Option (List (Option String))
  categories : Option (List String)
  media_content : Option (List MediaItem)
deriving DecidableEq, Repr

/-- The article record built by `parse_entry` (`feed_parser.Article`). -/
structure Article where
  id : Option String
  title : String
  content : String
  summary : String
  url : String
  source : String
  published_date : PyDateTime
  author : Option String
  categories : List String
  image_url : Option String
deriving DecidableEq, Repr

/-- The dictionary written to the cache by `Article.to_dict`
(the datetime serialized in ISO format). -/
structure ArticleDict where
  id : Option String
  title : String
  content : String
  summary : String
  url : String
  source : String
  published_date : String
  author : Option String
  categories : List String
  image_url : Option String
deriving DecidableEq, Repr

/-- `Article.to_dict`. -/
def Article.to_dict (a : Article) : ArticleDict :=
  ⟨a.id, a.title, a.content, a.summary, a.url, a.source,
   a.published_date.isoformat, a.author, a.categories, a.image_url⟩

/-- The external collaborators of entry normalization: the time of the
run, BeautifulSoup text extraction (`clean_html`), BeautifulSoup image
extraction (`extract_image_from_content`, failures already mapped to
`none` inside that helper) and dateutil free-text parsing
(`none` models a raised parse error). -/
structure ExtCalls where
  now : PyDateTime
  cleanHtmlFn : String → String
  extractImageFn : String → Option String
  parseDateFn : String → Option PyDateTime

/-! ### `feed_parser.py` normalization -/

/-- Whether the second list starts with the first. -/
def listStartsWith : List Char → List Char → Bool
  | [], _ => true
  | _ :: _, [] => false
  | a :: as, b :: bs => a = b && listStartsWith as bs

/-- Whether the needle occurs contiguously in the haystack. -/
def listHasSub (needle : List Char) : List Char → Bool
  | [] => listStartsWith needle []
  | c :: cs => listStartsWith needle (c :: cs) || listHasSub needle cs

/-- Python `needle in hay` on strings. -/
def strIn (needle hay : String) : Bool := listHasSub needle.data hay.data

/-- The keyword table of `categorize_by_url`, in insertion order. -/
def common_categories : List (String × List String) :=
  [("tech", ["tech", "technology", "digital", "gadgets", "computers", "software", "ai"]),
   ("business", ["business", "finance", "economy", "markets", "money", "investing"]),
   ("politics", ["politics", "government", "election", "policy", "congress"]),
   ("health", ["health", "medical", "medicine", "wellness", "covid", "disease"]),
   ("science", ["science", "research", "space", "environment", "climate"]),
   ("sports", ["sports", "football", "soccer", "basketball", "baseball", "nfl", "nba", "mlb"]),
   ("entertainment", ["entertainment", "movies", "tv", "music", "celebrity", "hollywood"]),
   ("world", ["world", "international", "global", "europe", "asia", "africa"])]

/-- The inner loop of `categorize_by_url`: the first category whose
keyword list contains the path part (the loop breaks on a match). -/
def categoryOf (part : String) : Option String :=
  (common_categories.find? (fun p => p.2.contains part)).map (fun p => p.1)

/-- The maximal nonempty runs between separators:
`[p for p in path.split(sep) if p]`. -/
def partsAux (sep : Char) : List Char → List Char → List (List Char)
  | [], acc => if acc = [] then [] else [acc.reverse]
  | c :: cs, acc =>
    if c = sep then
      (if acc = [] then partsAux sep cs [] else acc.reverse :: partsAux sep cs [])
    else partsAux sep cs (c :: acc)

/-- `feed_parser.categorize_by_url`.  Python finishes with
`list(set(categories))`, whose iteration order is unspecified; it is
modelled by `List.dedup` (one occurrence per category). -/
def categorize_by_url (url : String) : List String :=
  let path := (urlparse_path url).data.map Char.toLower
  let parts := partsAux '/' path []
  (parts.filterMap (fun p => categoryOf ⟨p⟩)).dedup

/-- The hash input `f"{path}_{title}_{published_date.isoformat()}"` of
`create_article_id`. -/
def article_id_input (url title : String) (published_date : PyDateTime) : String :=
  urlparse_path url ++ "_" ++ title ++ "_" ++ published_date.isoformat

/-- `feed_parser.create_article_id`: the md5 hex digest of a string
built from the URL path, the title and the ISO timestamp. -/
def create_article_id (url title : String) (published_date : PyDateTime) : String :=
  md5hex (article_id_input url title published_date)

/-- Content resolution of `parse_entry`: the structured content value,
else the description, else the entry summary field, else empty. -/
def resolve_content (e : FeedEntry) : String :=
  match e.content with
  | some v => v
  | none =>
    match e.description with
    | some dsc => dsc
    | none =>
      match e.summary with
      | some s => s
      | none => ""

/-- `if REMOVE_HTML_TAGS and text: text = clean_html(text)`. -/
def cleaned (ext : ExtCalls) (s : String) : String :=
  if REMOVE_HTML_TAGS && s ≠ "" then ext.cleanHtmlFn s else s

/-- The truncation applied to the resolved summary:
`summary[:MAX_SUMMARY_LENGTH] + "..."` when a non-empty summary exceeds
`MAX_SUMMARY_LENGTH` characters. -/
def truncate_summary (s : String) : String :=
  if s ≠ "" && s.length > MAX_SUMMARY_LENGTH then
    (⟨s.data.take MAX_SUMMARY_LENGTH⟩ : String) ++ "..."
  else s

/-- Published-date resolution of `parse_entry` — an `if/elif` chain:
the parsed published struct, else the parsed updated struct, else a
best-effort parse of a non-empty free-text published field (current time
when the parse raises), else a best-effort parse of a non-empty
free-text updated field (current time when the parse raises), else the
current time. -/
def resolve_published (ext : ExtCalls) (e : FeedEntry) : PyDateTime :=
  match e.published_parsed with
  | some t => t
  | none =>
    match e.updated_parsed with
    | some t => t
    | none =>
      if truthy e.published then
        match ext.parseDateFn (e.published.getD "") with
        | some t => t
        | none => ext.now
      else if truthy e.updated then
        match ext.parseDateFn (e.updated.getD "") with
        | some t => t
        | none => ext.now
      else ext.now

/-- Category resolution of `parse_entry`: tag terms, else the categories
attribute, else (when the result is empty) categories from the URL. -/
def resolve_categories (e : FeedEntry) (url : String) : List String :=
  let categories :=
    match e.tags with
    | some tags => tags.filterMap id
    | none =>
      match e.categories with
      | some cs => cs
      | none => []
  if categories = [] then categorize_by_url url else categories

/-- The loop over `media_content`: the url of the first item having a
"url" key and typed as an image. -/
def findImage : List MediaItem → Option String
  | [] => none
  | m :: ms =>
    if m.url.isSome && (strIn "image" m.mtype || m.medium = some "image") then m.url
    else findImage ms

/-- Image resolution of `parse_entry`: the first image of a non-empty
`media_content`, and when that is falsy and the content is non-empty, an
image extracted from the content. -/
def resolve_image (ext : ExtCalls) (e : FeedEntry) (content : String) : Option String :=
  let image_url :=
    match e.media_content with
    | some (m :: ms) => findImage (m :: ms)
    | _ => none
  if !(truthy image_url) && content ≠ "" then ext.extractImageFn content else image_url

/-- `feed_parser.parse_entry`: normalize one feed entry into an Article,
or nothing when the title or the link is missing or empty. -/
def parse_entry (ext : ExtCalls) (e : FeedEntry) (source : String) : Option Article :=
  if e.title = "" then none
  else if e.link = "" then none
  else
    let content := cleaned ext (resolve_content e)
    let summary0 :=
      match e.summary with
      | some s => s
      | none => content
    let summary := truncate_summary (cleaned ext summary0)
    let published_date := resolve_published ext e
    let categories := resolve_categories e e.link
    let image_url := resolve_image ext e content
    let article_id := create_article_id e.link e.title published_date
    some ⟨some article_id, e.title, content, summary, e.link, source,
      published_date, e.author, categories, image_url⟩

/-! ### `feed_parser.py` fetch layer and cache -/

/-- The cache directory state: the parsed contents of
`CACHE_DIR/<source>.json` per source name. -/
def Cache := String → Option (List ArticleDict)

/-- `save_to_cache` when the json write succeeds. -/
def cacheWrite (c : Cache) (source : String) (articles : List ArticleDict) : Cache :=
  fun s => if s = source then some articles else c s

/-- External calls of the fetch layer: `session.get` plus
`feedparser.parse` (an error models a raised timeout/connection failure;
the value is the entry list of the parsed feed), and whether the cache
json write for a source raises.  A failing write leaves the modelled
cache at its previous value (the partial on-disk state is not modelled
further). -/
structure FetchCalls where
  fetchRaw : String → String → Except String (List FeedEntry)
  writeOk : String → Bool

/-- The Python default `max_articles = max_articles or
MAX_ARTICLES_PER_FEED` (both `None` and `0` are falsy). -/
def resolveMax : Option Nat → Nat
  | none => MAX_ARTICLES_PER_FEED
  | some 0 => MAX_ARTICLES_PER_FEED
  | some (n + 1) => n + 1

/-- The article list returned by `fetch_feed`: empty on a fetch error,
otherwise the normalized articles of the capped entry prefix (entries
normalized to `None` are skipped). -/
def fetch_feed_articles (ext : ExtCalls) (fc : FetchCalls) (source url : String)
    (max_articles : Option Nat) : List Article :=
  match fc.fetchRaw source url with
  | .error _ => []
  | .ok entries =>
    (entries.take (resolveMax max_articles)).filterMap (fun e => parse_entry ext e source)

/-- The cache state after `fetch_feed`: the source's entry is
overwritten with the serialized batch only when the fetch produced at
least one article and the write does not raise. -/
def fetch_feed_cache (ext : ExtCalls) (fc : FetchCalls) (c : Cache) (source url : String)
    (max_articles : Option Nat) : Cache :=
  let articles := fetch_feed_articles ext fc source url max_articles
  if articles ≠ [] && fc.writeOk source then
    cacheWrite c source (articles.map Article.to_dict)
  else c

/-- `feed_parser.fetch_feed`: the returned articles and the cache state
after the call. -/
def fetch_feed (ext : ExtCalls) (fc : FetchCalls) (c : Cache) (source url : String)
    (max_articles : Option Nat) : List Article × Cache :=
  (fetch_feed_articles ext fc source url max_articles,
   fetch_feed_cache ext fc c source url max_articles)

/-- The comparison of `all_articles.sort(key=lambda x:
x.published_date, reverse=True)`: newest first. -/
def newerFirst (a b : Article) : Bool :=
  PyDateTime.le b.published_date a.published_date

/-- `feed_parser.fetch_all_feeds`: loop over the feeds accumulating
articles and threading the cache, then stable-sort descending by
published date. -/
def fetch_all_feeds (ext : ExtCalls) (fc : FetchCalls) (c : Cache)
    (feeds : List (String × String)) : List Article × Cache :=
  let acc := feeds.foldl
    (fun (st : List Article × Cache) p =>
      let r := fetch_feed ext fc st.2 p.1 p.2 none
      (st.1 ++ r.1, r.2))
    ([], c)
  (acc.1.mergeSort newerFirst, acc.2)

/-! ### `vector_store.py` -/

/-- The payload stored for an article
(`VectorStore._article_to_payload`); the embedding vector is opaque to
the claims. -/
structure QdrantPayload where
  id : String
  url : String
  title : String
  content : String
  summary : String
  source : String
  categories : List String
  published_date : String
  image_url : Option String
deriving DecidableEq, Repr

namespace VectorStore

/-- `VectorStore._create_article_id`: the article's own id when truthy,
else the md5 of `f"{url}|{title}|{published_date.isoformat()}"` — the
full url with "|" separators, unlike `feed_parser.create_article_id`. -/
def _create_article_id (article : Article) : String :=
  if truthy article.id then article.id.getD ""
  else md5hex (article.url ++ "|" ++ article.title ++ "|" ++
    article.published_date.isoformat)

/-- A value of a `filter_dict` entry: a plain value, a list, or the
dict accepted under `published_date_filter` ($lt/$gt/$gte/$lte keys). -/
inductive FilterValue where
  | single : String → FilterValue
  | multi : List String → FilterValue
  | range : Option String → Option String → Option String → Option String → FilterValue
deriving DecidableEq, Repr

/-- A Qdrant filter condition built by `VectorStore.search`. -/
inductive Condition where
  | dtRange : Option String → Option String → Option String → Option String → Condition
  | matchAny : String → List String → Condition
  | matchValue : String → FilterValue → Condition
deriving DecidableEq, Repr

/-- The loop translating `filter_dict` into conditions:
`published_date_filter` with a dict value becomes a datetime range (and
is skipped for any other value); list values become any-of matches;
other values become exact matches; all are combined with AND. -/
def toConditions : List (String × FilterValue) → List Condition
  | [] => []
  | (k, v) :: rest =>
    (if k = "published_date_filter" then
      match v with
      | .range lt gt gte lte => [Condition.dtRange lt gt gte lte]
      | _ => []
    else
      match v with
      | .multi l => [Condition.matchAny k l]
      | _ => [Condition.matchValue k v]) ++ toConditions rest

/-- The store collaborators of `VectorStore.search`: the embedding
model's `encode` and the Qdrant client's `search`; an error models a
raised exception.  The vector and score types are opaque to the wrapper. -/
structure StoreCalls (Vec Score : Type) where
  encode : String → Except String Vec
  clientSearch : Vec → Nat → Option (List Condition) → Option Score →
    Except String (List (QdrantPayload × Score))

/-- `VectorStore.search`: build the filter from a non-empty
`filter_dict`, then embed the query and search inside a try/except that
returns the empty list when either store call raises; each result is the
payload paired with its score. -/
def search {Vec Score : Type} (sc : StoreCalls Vec Score) (query : String) (limit : Nat)
    (filter_dict : List (String × FilterValue)) (min_score : Option Score) :
    List (QdrantPayload × Score) :=
  let filter_obj := if filter_dict = [] then none else some (toConditions filter_dict)
  match sc.encode query with
  | .error _ => []
  | .ok v =>
    match sc.clientSearch v limit filter_obj min_score with
    | .error _ => []
    | .ok results => results

end VectorStore

/-! ### `weekly_feed_processor.py` -/

/-- The statistics returned by `process_feeds` (the wall-clock timestamp
entry is omitted). -/
structure ProcessStats where
  total_fetched : Nat
  recent_articles : Nat
  existing_articles : Nat
  new_articles_added : Nat
deriving DecidableEq, Repr

/-- `WeeklyFeedProcessor._get_existing_article_ids`: the id set of the
payloads returned by an empty-query search with limit 10000 (the
method's own except-branch is unreachable because `search` already maps
store errors to the empty list). -/
def get_existing_article_ids {Vec Score : Type}
    (sc : VectorStore.StoreCalls Vec Score) : Finset String :=
  ((VectorStore.search sc "" 10000 [] none).map (fun r => r.1.id)).toFinset

/-- The recency filter of `process_feeds`:
`article.published_date >= now - timedelta(days=7)`. -/
def recentFilter (now : PyDateTime) (arts : List Article) : List Article :=
  arts.filter (fun a => PyDateTime.le (now.subDays 7) a.published_date)

/-- Python `article.id in existing_ids` (`None` belongs to no string set). -/
def idMem (a : Article) (ids : Finset String) : Bool :=
  match a.id with
  | some s => decide (s ∈ ids)
  | none => false

/-- Lines 43-83 of `WeeklyFeedProcessor.process_feeds`, given the
fetched batch and the stored-id set: keep the last week, drop ids
already stored, and report the counts. -/
def process_feeds_step (now : PyDateTime) (all_articles : List Article)
    (existing_ids : Finset String) : List Article × ProcessStats :=
  let recent_articles := recentFilter now all_articles
  let new_articles := recent_articles.filter (fun a => !(idMem a existing_ids))
  (new_articles,
   ⟨all_articles.length, recent_articles.length, existing_ids.card, new_articles.length⟩)

/-- `WeeklyFeedProcessor.process_feeds`: the composition of
`fetch_all_feeds`, the existing-id query and the filter step; the
returned new articles are the batch passed to `add_articles`. -/
def process_feeds {Vec Score : Type} (now : PyDateTime) (ext : ExtCalls) (fc : FetchCalls)
    (c : Cache) (feeds : List (String × String))
    (sc : VectorStore.StoreCalls Vec Score) : List Article × ProcessStats :=
  process_feeds_step now (fetch_all_feeds ext fc c feeds).1 (get_existing_article_ids sc)

/-! ### Spec-side definition for the C5 refinement comparison, and
concrete fixtures used by counterexamples and witnesses -/

/-- The published-date resolution as the spec words it: each option is
tried in order — parsed published struct, parsed updated struct,
free-text published parse, free-text updated parse, current time — and
any parse failure falls through to the NEXT option. -/
def resolve_published_spec (ext : ExtCalls) (e : FeedEntry) : PyDateTime :=
  match e.published_parsed with
  | some t => t
  | none =>
    match e.updated_parsed with
    | some t => t
    | none =>
      match (if truthy e.published then ext.parseDateFn (e.published.getD "") else none) with
      | some t => t
      | none =>
        match (if truthy e.updated then ext.parseDateFn (e.updated.getD "") else none) with
        | some t => t
        | none => ext.now

/-- A run time used by concrete instances. -/
def dt0 : PyDateTime := ⟨2024, 3, 10, 12, 0, 0, 0⟩

/-- A concrete external-call bundle: HTML cleaning is the identity, no
image is ever extracted, and no free-text date parses. -/
def sampleExt : ExtCalls := ⟨dt0, fun s => s, fun _ => none, fun _ => none⟩

/-- An external-call bundle whose date parsing accepts exactly
"2024-01-01". -/
def chainExt : ExtCalls :=
  ⟨dt0, fun s => s, fun _ => none,
   fun s => if s = "2024-01-01" then some ⟨2024, 1, 1, 0, 0, 0, 0⟩ else none⟩

/-- An entry whose free-text published field does not parse while its
free-text updated field would. -/
def chainEntry : FeedEntry :=
  ⟨"t", "http://a.com/x", none, none, none, none, none,
   some "garbage", some "2024-01-01", none, none, none, none⟩

/-- An entry with no title. -/
def emptyEntry : FeedEntry :=
  ⟨"", "", none, none, none, none, none, none, none, none, none, none, none⟩

/-- A well-formed entry (title, link and a parsed published struct). -/
def okEntry : FeedEntry :=
  ⟨"Story", "http://a.example.com/news/story", some "body", none, none,
   some ⟨2024, 3, 9, 8, 0, 0, 0⟩, none, none, none, none, none, none, none⟩

/-- A recent article carrying id "A". -/
def artA : Article :=
  ⟨some "A", "ta", "ca", "sa", "http://a.com/a", "src", ⟨2024, 3, 9, 0, 0, 0, 0⟩,
   none, [], none⟩

/-- A recent article carrying id "C". -/
def artC : Article :=
  ⟨some "C", "tc", "cc", "sc", "http://a.com/c", "src", ⟨2024, 3, 8, 0, 0, 0, 0⟩,
   none, [], none⟩

/-- An article dated exactly at `dt0 - 7 days`. -/
def artBoundary : Article :=
  ⟨some "idB", "tb", "cb", "sb", "http://a.com/b", "src", ⟨2024, 3, 3, 12, 0, 0, 0⟩,
   none, [], none⟩

/-- An article one microsecond older than `dt0 - 7 days`. -/
def artOlder : Article :=
  ⟨some "idO", "to", "co", "so", "http://a.com/o", "src",
   ⟨2024, 3, 3, 11, 59, 59, 999999⟩, none, [], none⟩

/-- An article with no id at all (never produced by the normalizer). -/
def artNoId : Article :=
  ⟨none, "tn", "cn", "sn", "http://a.com/n", "src", dt0, none, [], none⟩

/-- A stale cache record for the counterexample on cache overwriting. -/
def oldCachedDict : ArticleDict :=
  ⟨some "old", "t", "c", "s", "u", "legacy", "2024-01-01T00:00:00", none, [], none⟩

/-- A cache holding a stale batch for the source "legacy". -/
def cacheWithOld : Cache :=
  fun s => if s = "legacy" then some [oldCachedDict] else none

/-- Fetch calls that succeed with zero entries and always write fine. -/
def fcEmptyOk : FetchCalls := ⟨fun _ _ => .ok [], fun _ => true⟩

/-- Fetch calls where the source "bad" raises and the source "good"
returns one well-formed entry. -/
def fcMixed : FetchCalls :=
  ⟨fun source _ => if source = "bad" then .error "timeout" else .ok [okEntry],
   fun _ => true⟩

/-- Store calls (over trivial vector and score types) whose embedding
call raises. -/
def scEncodeErr : VectorStore.StoreCalls Unit Unit :=
  ⟨fun _ => .error "model down", fun _ _ _ _ => .ok []⟩

/-- Store calls whose Qdrant search call raises. -/
def scSearchErr : VectorStore.StoreCalls Unit Unit :=
  ⟨fun _ => .ok (), fun _ _ _ _ => .error "connection refused"⟩

/-! ### Lemmas and claim theorems -/

/-- The article normalized from `okEntry` under `sampleExt`. -/
def goodArticle : Article :=
  ⟨some (create_article_id "http://a.example.com/news/story" "Story" ⟨2024, 3, 9, 8, 0, 0, 0⟩),
   "Story", "body", "body", "http://a.example.com/news/story", "good",
   ⟨2024, 3, 9, 8, 0, 0, 0⟩, none, [], none⟩

/-- Fetch calls that always raise. -/
def fcErr : FetchCalls := ⟨fun _ _ => .error "down", fun _ => true⟩

theorem PyDateTime.le_total (a b : PyDateTime) :
    PyDateTime.le a b || PyDateTime.le b a := by
  simp only [PyDateTime.le, PyDateTime.leP, Bool.or_eq_true, decide_eq_true_eq]
  omega

theorem PyDateTime.le_trans {a b c : PyDateTime}
    (h₁ : PyDateTime.le a b = true) (h₂ : PyDateTime.le b c = true) :
    PyDateTime.le a c = true := by
  simp only [PyDateTime.le, PyDateTime.leP, decide_eq_true_eq] at h₁ h₂ ⊢
  omega

theorem PyDateTime.lt_iff_not_le {a b : PyDateTime} :
    PyDateTime.lt a b = true ↔ ¬ PyDateTime.le b a = true := by
  simp only [PyDateTime.lt, PyDateTime.le, PyDateTime.leP, Bool.and_eq_true,
    Bool.not_eq_true', decide_eq_true_eq, decide_eq_false_iff_not]
  omega

theorem length_padDigits (w n : Nat) : (padDigits w n).length = w := by
  simp [padDigits]

theorem digitChar_inj {a b : Nat} (ha : a < 10) (hb : b < 10)
    (h : digitChar a = digitChar b) : a = b := by
  have key : ∀ x : Fin 10, ∀ y : Fin 10, digitChar x.val = digitChar y.val → x = y := by decide
  exact congrArg Fin.val (key ⟨a, ha⟩ ⟨b, hb⟩ h)

theorem digits_eq_of_lt_pow : ∀ (w : Nat) {n m : Nat}, n < 10 ^ w → m < 10 ^ w →
    (∀ i, i < w → n / 10 ^ i % 10 = m / 10 ^ i % 10) → n = m := by
  intro w
  induction w with
  | zero => intro n m hn hm _; omega
  | succ w ih =>
    intro n m hn hm hdig
    have hpow : 0 < 10 ^ w := Nat.pow_pos (by omega)
    have hhead : n / 10 ^ w % 10 = m / 10 ^ w % 10 := hdig w (Nat.lt_succ_self w)
    have hlt : n / 10 ^ w < 10 := by
      rw [Nat.div_lt_iff_lt_mul hpow]
      calc n < 10 ^ (w + 1) := hn
        _ = 10 * 10 ^ w := by ring
    have hlt' : m / 10 ^ w < 10 := by
      rw [Nat.div_lt_iff_lt_mul hpow]
      calc m < 10 ^ (w + 1) := hm
        _ = 10 * 10 ^ w := by ring
    have htop : n / 10 ^ w = m / 10 ^ w := by
      rw [← Nat.mod_eq_of_lt hlt, ← Nat.mod_eq_of_lt hlt']; exact hhead
    have hmodeq : n % 10 ^ w = m % 10 ^ w := by
      apply ih (Nat.mod_lt _ hpow) (Nat.mod_lt _ hpow)
      intro i hi
      have hsplit : (10 : Nat) ^ w = 10 ^ i * 10 ^ (w - i) := by
        rw [← pow_add]; congr 1; omega
      have hdvd : (10 : Nat) ∣ 10 ^ (w - i) :=
        dvd_pow_self 10 (Nat.sub_ne_zero_of_lt hi)
      rw [hsplit, Nat.mod_mul_right_div_self, Nat.mod_mod_of_dvd _ hdvd,
        Nat.mod_mul_right_div_self, Nat.mod_mod_of_dvd _ hdvd]
      exact hdig i (by omega)
    calc n = 10 ^ w * (n / 10 ^ w) + n % 10 ^ w := (Nat.div_add_mod n _).symm
      _ = 10 ^ w * (m / 10 ^ w) + m % 10 ^ w := by rw [htop, hmodeq]
      _ = m := Nat.div_add_mod m _

theorem padDigits_inj {w n m : Nat} (hn : n < 10 ^ w) (hm : m < 10 ^ w)
    (h : padDigits w n = padDigits w m) : n = m := by
  apply digits_eq_of_lt_pow w hn hm
  intro i hi
  have h' : ∀ a, a < w → digitChar (n / 10 ^ a % 10) = digitChar (m / 10 ^ a % 10) := by
    simpa [padDigits] using h
  exact digitChar_inj (Nat.mod_lt _ (by omega)) (Nat.mod_lt _ (by omega)) (h' i hi)

theorem usChars_inj {a b : Nat} (ha : a ≤ 999999) (hb : b ≤ 999999)
    (h : usChars a = usChars b) : a = b := by
  unfold usChars at h
  by_cases h1 : a = 0 <;> by_cases h2 : b = 0
  · omega
  · simp [h1, h2] at h
  · simp [h1, h2] at h
  · simp only [if_neg h1, if_neg h2, List.cons.injEq, true_and] at h
    exact padDigits_inj (by omega) (by omega) h

theorem isoChars_inj {d₁ d₂ : PyDateTime} (h₁ : d₁.valid) (h₂ : d₂.valid)
    (h : isoChars d₁ = isoChars d₂) : d₁ = d₂ := by
  obtain ⟨y₁, mo₁, dd₁, hh₁, mi₁, ss₁, us₁⟩ := d₁
  obtain ⟨y₂, mo₂, dd₂, hh₂, mi₂, ss₂, us₂⟩ := d₂
  simp only [PyDateTime.valid] at h₁ h₂
  obtain ⟨ha1, ha2, ha3, ha4, ha5, ha6, ha7, ha8, ha9, ha10⟩ := h₁
  obtain ⟨hb1, hb2, hb3, hb4, hb5, hb6, hb7, hb8, hb9, hb10⟩ := h₂
  simp only [isoChars] at h
  obtain ⟨hy, h⟩ := List.append_inj h (by simp [length_padDigits])
  injection h with _ h
  obtain ⟨hmo, h⟩ := List.append_inj h (by simp [length_padDigits])
  injection h with _ h
  obtain ⟨hdd, h⟩ := List.append_inj h (by simp [length_padDigits])
  injection h with _ h
  obtain ⟨hhh, h⟩ := List.append_inj h (by simp [length_padDigits])
  injection h with _ h
  obtain ⟨hmi, h⟩ := List.append_inj h (by simp [length_padDigits])
  injection h with _ h
  obtain ⟨hss, h⟩ := List.append_inj h (by simp [length_padDigits])
  simp only [PyDateTime.mk.injEq]
  have e4 : (10 : Nat) ^ 4 = 10000 := by norm_num
  have e2 : (10 : Nat) ^ 2 = 100 := by norm_num
  refine ⟨padDigits_inj (by omega) (by omega) hy,
    padDigits_inj (by omega) (by omega) hmo,
    padDigits_inj (by omega) (by omega) hdd,
    padDigits_inj (by omega) (by omega) hhh,
    padDigits_inj (by omega) (by omega) hmi,
    padDigits_inj (by omega) (by omega) hss,
    usChars_inj (by omega) (by omega) h⟩

theorem PyDateTime.isoformat_inj {d₁ d₂ : PyDateTime}
    (h₁ : d₁.valid) (h₂ : d₂.valid)
    (h : d₁.isoformat = d₂.isoformat) : d₁ = d₂ :=
  isoChars_inj h₁ h₂ (congrArg String.data h)

theorem length_leBytes (w : Nat) : ∀ n, (MD5.leBytes w n).length = w := by
  induction w with
  | zero => intro n; rfl
  | succ w ih => intro n; simp [MD5.leBytes, ih]

theorem length_flatMap_byteHex (l : List Nat) :
    (l.flatMap MD5.byteHex).length = 2 * l.length := by
  induction l with
  | nil => rfl
  | cons b bs ih => simp [MD5.byteHex, ih]; omega

theorem md5hex_length (s : String) : (md5hex s).length = 32 := by
  show (md5hex s).data.length = 32
  have hdata : (md5hex s).data = (MD5.digestBytes (strBytes s)).flatMap MD5.byteHex := rfl
  rw [hdata, length_flatMap_byteHex]
  have h16 : (MD5.digestBytes (strBytes s)).length = 16 := by
    simp [MD5.digestBytes, List.length_append, length_leBytes]
  rw [h16]

theorem md5hex_ne_empty (s : String) : md5hex s ≠ "" := by
  intro h
  have := congrArg String.length h
  rw [md5hex_length] at this
  simp [String.length] at this

/-- C7: a resolved summary longer than 200 characters is stored as its
first 200 characters followed by the 3-character "..." marker (203
characters in total); a summary of at most 200 characters is stored
unchanged. -/
theorem C7_summary_truncation (s : String) :
    (s.length > 200 →
      truncate_summary s = (⟨s.data.take 200⟩ : String) ++ "..." ∧
      (truncate_summary s).length = 203) ∧
    (s.length ≤ 200 → truncate_summary s = s) := by
  constructor
  · intro hlong
    have hne : s ≠ "" := by
      intro he
      rw [he] at hlong
      simp [String.length] at hlong
    have heq : truncate_summary s = (⟨s.data.take 200⟩ : String) ++ "..." := by
      simp [truncate_summary, MAX_SUMMARY_LENGTH, hne, hlong]
    refine ⟨heq, ?_⟩
    rw [heq, String.length_append]
    have h1 : (⟨s.data.take 200⟩ : String).length = 200 := by
      show (s.data.take 200).length = 200
      rw [List.length_take]
      have hlen : s.data.length = s.length := rfl
      omega
    rw [h1]
    rfl
  · intro hshort
    have hnot : ¬(s.length > MAX_SUMMARY_LENGTH) := by
      simp only [MAX_SUMMARY_LENGTH]
      omega
    simp [truncate_summary, hnot]

/-- C7 witness: a 250-character summary is truncated to its first 200
characters plus "..." (203 characters), and a 200-character summary is
unchanged. -/
theorem C7_summary_truncation_witness :
    ((⟨List.replicate 250 'a'⟩ : String).length > 200 ∧
      truncate_summary ⟨List.replicate 250 'a'⟩ =
        (⟨(List.replicate 250 'a').take 200⟩ : String) ++ "..." ∧
      (truncate_summary ⟨List.replicate 250 'a'⟩).length = 203) ∧
    ((⟨List.replicate 200 'b'⟩ : String).length ≤ 200 ∧
      truncate_summary ⟨List.replicate 200 'b'⟩ = ⟨List.replicate 200 'b'⟩) := by
  have h1 : (⟨List.replicate 250 'a'⟩ : String).length > 200 := by
    show (List.replicate 250 'a').length > 200
    rw [List.length_replicate]
    omega
  have h2 : (⟨List.replicate 200 'b'⟩ : String).length ≤ 200 := by
    show (List.replicate 200 'b').length ≤ 200
    rw [List.length_replicate]
  exact ⟨⟨h1, (C7_summary_truncation _).1 h1⟩, h2, (C7_summary_truncation _).2 h2⟩

/-- C8: an entry whose title or link is absent or empty produces no
Article, and every Article the normalizer produces has a non-empty
title and a non-empty url. -/
theorem C8_title_link_mandatory (ext : ExtCalls) (e : FeedEntry) (source : String) :
    ((e.title = "" ∨ e.link = "") → parse_entry ext e source = none) ∧
    (∀ a, parse_entry ext e source = some a → a.title ≠ "" ∧ a.url ≠ "") := by
  constructor
  · rintro (h | h)
    · simp [parse_entry, h]
    · by_cases ht : e.title = ""
      · simp [parse_entry, ht]
      · simp [parse_entry, ht, h]
  · intro a ha
    by_cases ht : e.title = ""
    · simp [parse_entry, ht] at ha
    · by_cases hl : e.link = ""
      · simp [parse_entry, ht, hl] at ha
      · simp only [parse_entry, if_neg ht, if_neg hl, Option.some.injEq] at ha
        subst ha
        exact ⟨ht, hl⟩

/-- C8 witness: the empty entry is rejected, and the well-formed entry
produces an article with non-empty title and url. -/
theorem C8_title_link_mandatory_witness :
    parse_entry sampleExt emptyEntry "src" = none ∧
    ∀ a, parse_entry sampleExt okEntry "src" = some a → a.title ≠ "" ∧ a.url ≠ "" :=
  ⟨(C8_title_link_mandatory sampleExt emptyEntry "src").1 (Or.inl rfl),
   (C8_title_link_mandatory sampleExt okEntry "src").2⟩

/-- C5 (amended): published-date resolution prefers the parsed published
struct, then the parsed updated struct; failing those, a non-empty
free-text published field is best-effort parsed with the CURRENT TIME as
fallback (the free-text updated field is not consulted in that case);
only when the free-text published field is absent or empty is a
non-empty free-text updated field parsed, again with the current time as
fallback; with no usable field the current time is used.  Nothing ever
raises. -/
theorem C5_published_resolution (ext : ExtCalls) (e : FeedEntry) :
    (∀ t, e.published_parsed = some t → resolve_published ext e = t) ∧
    (e.published_parsed = none → ∀ t, e.updated_parsed = some t →
      resolve_published ext e = t) ∧
    (e.published_parsed = none → e.updated_parsed = none →
      truthy e.published = true →
      resolve_published ext e = (ext.parseDateFn (e.published.getD "")).getD ext.now) ∧
    (e.published_parsed = none → e.updated_parsed = none →
      truthy e.published = false → truthy e.updated = true →
      resolve_published ext e = (ext.parseDateFn (e.updated.getD "")).getD ext.now) ∧
    (e.published_parsed = none → e.updated_parsed = none →
      truthy e.published = false → truthy e.updated = false →
      resolve_published ext e = ext.now) := by
  refine ⟨?_, ?_, ?_, ?_, ?_⟩
  · intro t h
    simp [resolve_published, h]
  · intro h1 t h2
    simp [resolve_published, h1, h2]
  · intro h1 h2 h3
    simp only [resolve_published, h1, h2, h3, if_true]
    cases ext.parseDateFn (e.published.getD "") <;> rfl
  · intro h1 h2 h3 h4
    simp only [resolve_published, h1, h2, h3, h4, if_true, Bool.false_eq_true, if_false]
    cases ext.parseDateFn (e.updated.getD "") <;> rfl
  · intro h1 h2 h3 h4
    simp [resolve_published, h1, h2, h3, h4]

/-- C5 witness: with no parsed structs and an unparseable non-empty
free-text published field, the resolved date is the current time. -/
theorem C5_published_resolution_witness :
    truthy chainEntry.published = true ∧
    resolve_published sampleExt chainEntry =
      (sampleExt.parseDateFn (chainEntry.published.getD "")).getD sampleExt.now :=
  ⟨by decide,
   (C5_published_resolution sampleExt chainEntry).2.2.1 rfl rfl (by decide)⟩

/-- C5 counterexample: an entry whose free-text published field fails
to parse while its free-text updated field would parse.  The code keeps
the current time; the spec's fall-through chain would take the parsed
updated value, so the two disagree. -/
theorem C5_counterexample :
    resolve_published chainExt chainEntry = chainExt.now ∧
    resolve_published_spec chainExt chainEntry = ⟨2024, 1, 1, 0, 0, 0, 0⟩ ∧
    resolve_published chainExt chainEntry ≠ resolve_published_spec chainExt chainEntry := by
  refine ⟨by decide, by decide, by decide⟩

theorem PyDateTime.le_refl (a : PyDateTime) : PyDateTime.le a a = true := by
  simp [PyDateTime.le, PyDateTime.leP]

/-- C4: the recency filter keeps exactly the articles with published
timestamp at or after `now - 7 days`: membership in its output is
membership in the input plus the inclusive boundary test, an article
dated exactly at the boundary is kept, and a strictly older article is
dropped. -/
theorem C4_recency_filter (now : PyDateTime) (arts : List Article) :
    (∀ a, a ∈ recentFilter now arts ↔
      a ∈ arts ∧ PyDateTime.le (now.subDays 7) a.published_date = true) ∧
    (∀ a, a ∈ arts → a.published_date = now.subDays 7 →
      a ∈ recentFilter now arts) ∧
    (∀ a, a ∈ arts → PyDateTime.lt a.published_date (now.subDays 7) = true →
      a ∉ recentFilter now arts) := by
  have hmem : ∀ a, a ∈ recentFilter now arts ↔
      a ∈ arts ∧ PyDateTime.le (now.subDays 7) a.published_date = true := by
    intro a
    simp [recentFilter, List.mem_filter]
  refine ⟨hmem, ?_, ?_⟩
  · intro a hin heq
    exact (hmem a).mpr ⟨hin, by rw [heq]; exact PyDateTime.le_refl _⟩
  · intro a _ hlt hin
    exact (PyDateTime.lt_iff_not_le.mp hlt) ((hmem a).mp hin).2

/-- C4 witness: with run time 2024-03-10T12:00:00, an article dated
exactly 2024-03-03T12:00:00 is kept while an article one microsecond
older (2024-03-03T11:59:59.999999) is dropped. -/
theorem C4_recency_filter_witness :
    artBoundary.published_date = dt0.subDays 7 ∧
    artBoundary ∈ recentFilter dt0 [artBoundary, artOlder] ∧
    PyDateTime.lt artOlder.published_date (dt0.subDays 7) = true ∧
    artOlder ∉ recentFilter dt0 [artBoundary, artOlder] := by
  have hb : artBoundary.published_date = dt0.subDays 7 := by decide
  have ho : PyDateTime.lt artOlder.published_date (dt0.subDays 7) = true := by decide
  exact ⟨hb,
    (C4_recency_filter dt0 [artBoundary, artOlder]).2.1 artBoundary (by simp) hb,
    ho,
    (C4_recency_filter dt0 [artBoundary, artOlder]).2.2 artOlder (by simp) ho⟩

/-- C3: the dedup step outputs exactly the recent articles whose id is
not among the stored ids, and its counts report the fetched, recent,
stored and new sizes; concretely, with stored ids {A, B} and a recent
fetched batch of two articles carrying ids A and C, the output is
exactly the article with id C and the counts are (2, 2, 2, 1). -/
theorem C3_dedup_step (now : PyDateTime) (all_articles : List Article)
    (existing_ids : Finset String) (a1 a2 : Article) (A B C : String)
    (hA : a1.id = some A) (hC : a2.id = some C)
    (hCA : C ≠ A) (hCB : C ≠ B) (hAB : A ≠ B)
    (hrec1 : PyDateTime.le (now.subDays 7) a1.published_date = true)
    (hrec2 : PyDateTime.le (now.subDays 7) a2.published_date = true) :
    (∀ a, a ∈ (process_feeds_step now all_articles existing_ids).1 ↔
      a ∈ recentFilter now all_articles ∧ idMem a existing_ids = false) ∧
    ((process_feeds_step now all_articles existing_ids).2.total_fetched =
        all_articles.length ∧
      (process_feeds_step now all_articles existing_ids).2.recent_articles =
        (recentFilter now all_articles).length ∧
      (process_feeds_step now all_articles existing_ids).2.existing_articles =
        existing_ids.card ∧
      (process_feeds_step now all_articles existing_ids).2.new_articles_added =
        (process_feeds_step now all_articles existing_ids).1.length) ∧
    process_feeds_step now [a1, a2] {A, B} = ([a2], ⟨2, 2, 2, 1⟩) := by
  refine ⟨?_, ⟨rfl, rfl, rfl, rfl⟩, ?_⟩
  · intro a
    simp [process_feeds_step, List.mem_filter]
  · have hstep : recentFilter now [a1, a2] = [a1, a2] := by
      simp [recentFilter, hrec1, hrec2]
    have hm1 : idMem a1 {A, B} = true := by simp [idMem, hA]
    have hm2 : idMem a2 ({A, B} : Finset String) = false := by
      simp [idMem, hC, hCA, hCB]
    have hcard : ({A, B} : Finset String).card = 2 := by
      rw [Finset.card_insert_of_not_mem (by simp [hAB]), Finset.card_singleton]
    simp [process_feeds_step, hstep, hm1, hm2, hcard]

/-- C3 witness: the two-id scenario instantiated with concrete articles
and stored ids. -/
theorem C3_dedup_step_witness :
    process_feeds_step dt0 [artA, artC] {"A", "B"} = ([artC], ⟨2, 2, 2, 1⟩) :=
  (C3_dedup_step dt0 [artA, artC] {"A", "B"} artA artC "A" "B" "C" rfl rfl
    (by decide) (by decide) (by decide) (by decide) (by decide)).2.2

/-- C6: for every query, limit, filter dictionary and score threshold,
`VectorStore.search` returns the empty list whenever a store-layer call
raises — either the embedding call or the Qdrant search call — instead
of propagating the failure. -/
theorem C6_search_store_errors {Vec Score : Type} (sc : VectorStore.StoreCalls Vec Score)
    (query : String) (limit : Nat)
    (filter_dict : List (String × VectorStore.FilterValue)) (min_score : Option Score) :
    (∀ msg, sc.encode query = .error msg →
      VectorStore.search sc query limit filter_dict min_score = []) ∧
    (∀ v msg, sc.encode query = .ok v →
      sc.clientSearch v limit
        (if filter_dict = [] then none else some (VectorStore.toConditions filter_dict))
        min_score = .error msg →
      VectorStore.search sc query limit filter_dict min_score = []) := by
  constructor
  · intro msg h
    simp [VectorStore.search, h]
  · intro v msg h1 h2
    simp [VectorStore.search, h1, h2]

/-- C6 witness: a failing embedding call and a failing Qdrant search
call each produce the empty result at a concrete query. -/
theorem C6_search_store_errors_witness :
    VectorStore.search scEncodeErr "ai news" 10 [] none = [] ∧
    VectorStore.search scSearchErr "ai news" 10 [] none = [] :=
  ⟨(C6_search_store_errors scEncodeErr "ai news" 10 [] none).1 "model down" rfl,
   (C6_search_store_errors scSearchErr "ai news" 10 [] none).2 () "connection refused" rfl rfl⟩

/-- C10: the store keys an article by its own id whenever one is set and
non-empty — in particular every normalizer-produced article keeps its
normalizer-assigned id as the upserted key; only an article with no id
gets the fallback hash, whose input is the full url with "|" separators
(a different format from the normalizer's path with "_" separators, as
the final conjunct shows at a concrete input). -/
theorem C10_store_id (a : Article) (ext : ExtCalls) (e : FeedEntry) (source : String) :
    (∀ s, a.id = some s → s ≠ "" → VectorStore._create_article_id a = s) ∧
    (∀ art, parse_entry ext e source = some art →
      art.id = some (create_article_id e.link e.title (resolve_published ext e)) ∧
      VectorStore._create_article_id art =
        create_article_id e.link e.title (resolve_published ext e)) ∧
    (a.id = none → VectorStore._create_article_id a =
      md5hex (a.url ++ "|" ++ a.title ++ "|" ++ a.published_date.isoformat)) ∧
    article_id_input "http://a.example.com/x" "T" dt0 ≠
      "http://a.example.com/x" ++ "|" ++ "T" ++ "|" ++ dt0.isoformat := by
  refine ⟨?_, ?_, ?_, by decide⟩
  · intro s hs hne
    simp [VectorStore._create_article_id, truthy, hs, hne]
  · intro art hart
    by_cases ht : e.title = ""
    · simp [parse_entry, ht] at hart
    · by_cases hl : e.link = ""
      · simp [parse_entry, ht, hl] at hart
      · simp only [parse_entry, if_neg ht, if_neg hl, Option.some.injEq] at hart
        subst hart
        refine ⟨rfl, ?_⟩
        simp [VectorStore._create_article_id, truthy, md5hex_ne_empty, create_article_id]
  · intro hnone
    simp [VectorStore._create_article_id, truthy, hnone]

/-- C10 witness: a stored article keeps its set id; an article with no
id gets the fallback hash; a normalizer-produced article keeps the
normalizer id. -/
theorem C10_store_id_witness :
    VectorStore._create_article_id artA = "A" ∧
    VectorStore._create_article_id artNoId =
      md5hex (artNoId.url ++ "|" ++ artNoId.title ++ "|" ++
        artNoId.published_date.isoformat) ∧
    ∀ art, parse_entry sampleExt okEntry "src" = some art →
      VectorStore._create_article_id art =
        create_article_id okEntry.link okEntry.title (resolve_published sampleExt okEntry) :=
  ⟨(C10_store_id artA sampleExt okEntry "src").1 "A" rfl (by decide),
   (C10_store_id artNoId sampleExt okEntry "src").2.2.1 rfl,
   fun art hart => ((C10_store_id artNoId sampleExt okEntry "src").2.1 art hart).2⟩

theorem article_id_input_data (u t : String) (d : PyDateTime) :
    (article_id_input u t d).data =
      (urlparse_path u).data ++ ('_' :: (t.data ++ ('_' :: isoChars d))) := by
  show (urlparse_path u ++ "_" ++ t ++ "_" ++ d.isoformat).data = _
  simp [String.data_append, PyDateTime.isoformat, List.append_assoc]

/-- C1 (amended): the identifier is a pure function of (url, title,
timestamp) — equal triples give equal ids; with the other two
components fixed, a different title or a different valid timestamp
changes the md5 input string (hence the id whenever md5 does not
collide on the two inputs); but the url enters only through its parsed
path, so two urls with the same path give the SAME id. -/
theorem C1_article_id (u u' t t' : String) (d d' : PyDateTime)
    (hv : d.valid) (hv' : d'.valid) :
    (u = u' → t = t' → d = d' →
      create_article_id u t d = create_article_id u' t' d') ∧
    (t ≠ t' → article_id_input u t d ≠ article_id_input u t' d) ∧
    (d ≠ d' → article_id_input u t d ≠ article_id_input u t d') ∧
    (urlparse_path u = urlparse_path u' →
      create_article_id u t d = create_article_id u' t d) := by
  refine ⟨?_, ?_, ?_, ?_⟩
  · intro h1 h2 h3
    rw [h1, h2, h3]
  · intro hne heq
    apply hne
    have hd := congrArg String.data heq
    rw [article_id_input_data, article_id_input_data] at hd
    have h1 := List.append_cancel_left hd
    injection h1 with _ h1
    have h2 := List.append_cancel_right h1
    exact congrArg String.mk h2
  · intro hne heq
    apply hne
    have hd := congrArg String.data heq
    rw [article_id_input_data, article_id_input_data] at hd
    have h1 := List.append_cancel_left hd
    injection h1 with _ h1
    have h2 := List.append_cancel_left h1
    injection h2 with _ h2
    exact isoChars_inj hv hv' h2
  · intro hp
    show md5hex (article_id_input u t d) = md5hex (article_id_input u' t d)
    unfold article_id_input
    rw [hp]

/-- C1 counterexample: two different urls with the same path (different
hosts), with the title and the timestamp held equal, hash to the same
identifier — changing the url alone need not change the id. -/
theorem C1_counterexample :
    create_article_id "http://a.example.com/news/story" "T" dt0 =
      create_article_id "http://b.example.org/news/story" "T" dt0 ∧
    ("http://a.example.com/news/story" : String) ≠ "http://b.example.org/news/story" := by
  constructor
  · have h : article_id_input "http://a.example.com/news/story" "T" dt0 =
        article_id_input "http://b.example.org/news/story" "T" dt0 := by decide
    exact congrArg md5hex h
  · decide

/-- C1 witness: concrete distinct titles and distinct valid timestamps
give distinct md5 inputs, and a scheme change that keeps the path keeps
the id. -/
theorem C1_article_id_witness :
    article_id_input "http://a.com/x" "T1" dt0 ≠
      article_id_input "http://a.com/x" "T2" dt0 ∧
    article_id_input "http://a.com/x" "T1" dt0 ≠
      article_id_input "http://a.com/x" "T1" ⟨2024, 3, 11, 12, 0, 0, 0⟩ ∧
    create_article_id "http://a.com/x" "T1" dt0 =
      create_article_id "https://a.com/x" "T1" dt0 := by
  refine ⟨?_, ?_, ?_⟩
  · exact (C1_article_id "http://a.com/x" "http://a.com/x" "T1" "T2" dt0 dt0
      (by decide) (by decide)).2.1 (by decide)
  · exact (C1_article_id "http://a.com/x" "http://a.com/x" "T1" "T1" dt0
      ⟨2024, 3, 11, 12, 0, 0, 0⟩ (by decide) (by decide)).2.2.1 (by decide)
  · exact (C1_article_id "http://a.com/x" "https://a.com/x" "T1" "T1" dt0 dt0
      (by decide) (by decide)).2.2.2 (by decide)

theorem fetch_all_foldl (ext : ExtCalls) (fc : FetchCalls) (feeds : List (String × String)) :
    ∀ (acc : List Article) (c : Cache),
      (feeds.foldl (fun (st : List Article × Cache) p =>
        let r := fetch_feed ext fc st.2 p.1 p.2 none
        (st.1 ++ r.1, r.2)) (acc, c)).1 =
      acc ++ feeds.flatMap (fun p => fetch_feed_articles ext fc p.1 p.2 none) := by
  induction feeds with
  | nil =>
    intro acc c
    simp
  | cons p ps ih =>
    intro acc c
    simp only [List.foldl_cons, List.flatMap_cons]
    rw [ih]
    simp [fetch_feed, List.append_assoc]

theorem fetch_all_feeds_fst (ext : ExtCalls) (fc : FetchCalls) (c : Cache)
    (feeds : List (String × String)) :
    (fetch_all_feeds ext fc c feeds).1 =
      (feeds.flatMap (fun p => fetch_feed_articles ext fc p.1 p.2 none)).mergeSort
        newerFirst := by
  simp only [fetch_all_feeds]
  rw [fetch_all_foldl]
  simp

/-- C2: the merged fetch returns a permutation of the concatenation of
every source's normalized articles, sorted descending by published
timestamp; a source whose fetch raises (timeout, connection failure —
the modelled failure modes of the request/parse step) contributes
exactly zero articles, while every article of every other source still
appears in the same run's result.  Totality of the model is the
never-raises guarantee. -/
theorem C2_fetch_all (ext : ExtCalls) (fc : FetchCalls) (c : Cache)
    (feeds : List (String × String)) :
    ((fetch_all_feeds ext fc c feeds).1).Perm
      (feeds.flatMap (fun p => fetch_feed_articles ext fc p.1 p.2 none)) ∧
    ((fetch_all_feeds ext fc c feeds).1).Pairwise (fun a b => newerFirst a b = true) ∧
    (∀ source url msg m, fc.fetchRaw source url = .error msg →
      fetch_feed_articles ext fc source url m = []) ∧
    (∀ p, p ∈ feeds → ∀ a, a ∈ fetch_feed_articles ext fc p.1 p.2 none →
      a ∈ (fetch_all_feeds ext fc c feeds).1) := by
  have hfst := fetch_all_feeds_fst ext fc c feeds
  refine ⟨?_, ?_, ?_, ?_⟩
  · rw [hfst]
    exact List.mergeSort_perm _ _
  · rw [hfst]
    exact @List.sorted_mergeSort Article newerFirst
      (fun a b c hab hbc => PyDateTime.le_trans hbc hab)
      (fun a b => PyDateTime.le_total b.published_date a.published_date) _
  · intro source url msg m h
    simp [fetch_feed_articles, h]
  · intro p hp a ha
    rw [hfst, List.mem_mergeSort]
    exact List.mem_flatMap.mpr ⟨p, hp, ha⟩

/-- C2 witness: with a raising source and a healthy source in one run,
the raising source contributes zero articles and the healthy source's
article appears in the merged result. -/
theorem C2_fetch_all_witness :
    fetch_feed_articles sampleExt fcMixed "bad" "http://bad.com/rss" none = [] ∧
    goodArticle ∈ (fetch_all_feeds sampleExt fcMixed (fun _ => none)
      [("bad", "http://bad.com/rss"), ("good", "http://good.com/rss")]).1 := by
  have hgood : fetch_feed_articles sampleExt fcMixed "good" "http://good.com/rss" none =
      [goodArticle] := rfl
  constructor
  · exact (C2_fetch_all sampleExt fcMixed (fun _ => none)
      [("bad", "http://bad.com/rss"), ("good", "http://good.com/rss")]).2.2.1
      "bad" "http://bad.com/rss" "timeout" none rfl
  · exact (C2_fetch_all sampleExt fcMixed (fun _ => none)
      [("bad", "http://bad.com/rss"), ("good", "http://good.com/rss")]).2.2.2
      ("good", "http://good.com/rss") (by simp) goodArticle
      (by rw [hgood]; exact List.mem_singleton.mpr rfl)

/-- C9 (amended): a failed fetch returns no articles and leaves the
cache unchanged; a successful fetch yielding at least one article
overwrites that source's cache entry with the serialized batch when the
write succeeds; a successful fetch yielding ZERO articles leaves the
cache unchanged (so the cache need not hold the latest successful fetch
result); the returned articles never depend on the write outcome (a
failed write is logged, not fatal); and other sources' entries are
never touched. -/
theorem C9_cache (ext : ExtCalls) (fc : FetchCalls) (c : Cache)
    (source url : String) (m : Option Nat) :
    (∀ msg, fc.fetchRaw source url = .error msg →
      fetch_feed ext fc c source url m = ([], c)) ∧
    (fetch_feed ext fc c source url m).1 = fetch_feed_articles ext fc source url m ∧
    (fetch_feed_articles ext fc source url m ≠ [] → fc.writeOk source = true →
      (fetch_feed ext fc c source url m).2 source =
        some ((fetch_feed_articles ext fc source url m).map Article.to_dict)) ∧
    (fetch_feed_articles ext fc source url m = [] →
      (fetch_feed ext fc c source url m).2 = c) ∧
    (∀ s, s ≠ source → (fetch_feed ext fc c source url m).2 s = c s) := by
  refine ⟨?_, rfl, ?_, ?_, ?_⟩
  · intro msg h
    have ha : fetch_feed_articles ext fc source url m = [] := by
      simp [fetch_feed_articles, h]
    simp [fetch_feed, fetch_feed_cache, ha]
  · intro hne hw
    simp [fetch_feed, fetch_feed_cache, hne, hw, cacheWrite]
  · intro hempty
    simp [fetch_feed, fetch_feed_cache, hempty]
  · intro s hs
    show fetch_feed_cache ext fc c source url m s = c s
    unfold fetch_feed_cache
    split
    · simp [cacheWrite, hs]
    · rfl

/-- C9 counterexample: a fetch that succeeds with zero entries leaves
the stale cache entry in place, so the cache does not always hold the
most recent successful fetch result. -/
theorem C9_counterexample :
    fcEmptyOk.fetchRaw "legacy" "http://legacy.com/rss" = .ok [] ∧
    (fetch_feed sampleExt fcEmptyOk cacheWithOld "legacy" "http://legacy.com/rss" none).1 = [] ∧
    (fetch_feed sampleExt fcEmptyOk cacheWithOld "legacy" "http://legacy.com/rss" none).2
      "legacy" = some [oldCachedDict] ∧
    some [oldCachedDict] ≠
      some (((fetch_feed sampleExt fcEmptyOk cacheWithOld "legacy"
        "http://legacy.com/rss" none).1).map Article.to_dict) := by
  exact ⟨rfl, rfl, rfl, by decide⟩

/-- C9 witness: a raising fetch changes nothing; a successful fetch
with one article overwrites its own cache entry and leaves another
source's entry alone. -/
theorem C9_cache_witness :
    fetch_feed sampleExt fcErr cacheWithOld "good" "http://good.com/rss" none =
      ([], cacheWithOld) ∧
    (fetch_feed sampleExt fcMixed cacheWithOld "good" "http://good.com/rss" none).2
      "good" = some ((fetch_feed_articles sampleExt fcMixed "good"
        "http://good.com/rss" none).map Article.to_dict) ∧
    (fetch_feed sampleExt fcMixed cacheWithOld "good" "http://good.com/rss" none).2
      "legacy" = cacheWithOld "legacy" := by
  refine ⟨?_, ?_, ?_⟩
  · exact (C9_cache sampleExt fcErr cacheWithOld "good" "http://good.com/rss" none).1
      "down" rfl
  · exact (C9_cache sampleExt fcMixed cacheWithOld "good" "http://good.com/rss" none).2.2.1
      (by decide) rfl
  · exact (C9_cache sampleExt fcMixed cacheWithOld "good" "http://good.com/rss" none).2.2.2.2
      "legacy" (by decide)
